import Mathlib

/-!
Shallow embedding of the `CrowdFunding` Solidity contract (BlockFund repository).

Modelling conventions:
* `block.timestamp` is passed explicitly as a `now : Nat` argument.
* Monetary amounts are `Nat` (wei); `uint256` overflow is irrelevant at the
  sizes involved and Solidity 0.8 reverts on overflow anyway, so `Nat`
  addition models checked addition faithfully.
* A reverting call is modelled as `Except.error e`: the EVM rolls back every
  storage write of the transaction, so an error result carries no state and
  the caller keeps the pre-call state (see `applyOp`).
* `address(this).balance` is modelled as an explicit `balance` field; a
  `payable` call adds `msg.value` to it on success, `transfer` subtracts.
* Mappings (`backers`, `fundedTier`) are total functions with the Solidity
  zero-value default.
-/

namespace BlockFund

abbrev Address := Nat
abbrev Timestamp := Nat

/-- The `CampaignState` enum of the contract. -/
inductive CampaignState where
  | Active
  | Successful
  | Failed
deriving DecidableEq, Repr

/-- The `Tier` struct: `{ string name; uint256 amount; uint256 backers; }`. -/
structure Tier where
  name : String
  amount : Nat
  backers : Nat
deriving DecidableEq, Repr

/-- The `Backer` struct: cumulative contribution plus the funded-tier mapping. -/
structure Backer where
  totalContribution : Nat
  fundedTier : Nat → Bool

/-- The contract storage of one `CrowdFunding` campaign, together with its
native balance. -/
structure Campaign where
  name : String
  description : String
  goal : Nat
  deadline : Nat
  owner : Address
  paused : Bool
  deleted : Bool
  state : CampaignState
  tiers : List Tier
  backers : Address → Backer
  balance : Nat

/-- Revert reasons of the contract, one per `require` string. -/
inductive CError where
  | NotOwner
  | ContractPaused
  | CampaignNotActive
  | CampaignDeleted
  | InvalidTier
  | IncorrectAmount
  | CampaignNotSuccessful
  | NoBalance
  | NoContribution
  | TransferFailed
  | TierDoesNotExist
  | InvalidGoal
  | InvalidAmount
deriving DecidableEq, Repr

/-- Pointwise update of the `backers` mapping. -/
def updBacker (f : Address → Backer) (a : Address) (b : Backer) : Address → Backer :=
  fun x => if x = a then b else f x

/-- `checkAndUpdateCampaign()` (source lines 152-170): only acts on a
stored-Active campaign; past the deadline it settles to Successful or Failed
by the goal check, before the deadline it may promote to Successful early. -/
def checkAndUpdateCampaign (c : Campaign) (now : Timestamp) : Campaign :=
  if c.state = CampaignState.Active then
    let newState :=
      if c.deadline ≤ now then
        if c.goal ≤ c.balance then CampaignState.Successful else CampaignState.Failed
      else
        if c.goal ≤ c.balance then CampaignState.Successful else CampaignState.Active
    { c with state := newState }
  else c

/-- `getCampaignStatus()` (source lines 207-215), a view function. -/
def getCampaignStatus (c : Campaign) (now : Timestamp) : CampaignState :=
  if c.deleted then CampaignState.Failed
  else if c.state = CampaignState.Active ∧ now < c.deadline then
    if c.goal ≤ c.balance then CampaignState.Successful else CampaignState.Active
  else c.state

/-- The storage writes of the `fund` body (source lines 89-91) plus the
`msg.value` credit to the native balance: tier backer count incremented,
sender's cumulative contribution incremented, sender's funded-tier flag set. -/
def fundCommit (c : Campaign) (sender value tierIndex : Nat) (t : Tier) : Campaign :=
  { c with
    balance := c.balance + value
    tiers := c.tiers.set tierIndex { t with backers := t.backers + 1 }
    backers := updBacker c.backers sender
      ({ totalContribution := (c.backers sender).totalContribution + value
         fundedTier := fun j =>
           if j = tierIndex then true else (c.backers sender).fundedTier j }) }

/-- `fund(uint256 _tierIndex)` (source lines 85-95). Modifier order:
`campaignOpen`, `notPaused`, `notDeleted`; then the tier-index and exact-amount
requires; effects; and `checkAndUpdateCampaign()` at the END of the body.
`value` is `msg.value`, credited to the balance on success. -/
def fund (c : Campaign) (now : Timestamp) (sender : Address) (value : Nat)
    (tierIndex : Nat) : Except CError Campaign :=
  if c.state ≠ CampaignState.Active then .error .CampaignNotActive
  else if c.paused then .error .ContractPaused
  else if c.deleted then .error .CampaignDeleted
  else
    match c.tiers[tierIndex]? with
    | none => .error .InvalidTier
    | some t =>
      if value ≠ t.amount then .error .IncorrectAmount
      else .ok (checkAndUpdateCampaign (fundCommit c sender value tierIndex t) now)

/-- `withdraw()` (source lines 97-106): `onlyOwner`, `notDeleted`, resolves
state first, then requires Successful and a positive balance. Returns the
post-state and the transferred amount. -/
def withdraw (c : Campaign) (now : Timestamp) (sender : Address) :
    Except CError (Campaign × Nat) :=
  if sender ≠ c.owner then .error .NotOwner
  else if c.deleted then .error .CampaignDeleted
  else
    let c1 := checkAndUpdateCampaign c now
    if c1.state ≠ CampaignState.Successful then .error .CampaignNotSuccessful
    else if c1.balance = 0 then .error .NoBalance
    else .ok ({ c1 with balance := 0 }, c1.balance)

/-- One observable step of the `refund()` body, in source order: the storage
write zeroing the caller's contribution (line 112) and the external
`transfer` (line 115). -/
inductive RefundStep where
  | zeroContribution (backer : Address) : RefundStep
  | transfer (recipient : Address) (amount : Nat) : RefundStep
deriving DecidableEq, Repr

/-- `refund()` (source lines 108-116): `notDeleted`, resolves state, requires a
positive recorded contribution, zeroes it, then transfers. Solidity's
`transfer` reverts the whole call when the contract balance is below the
amount (reachable after `emergencyWithdraw`/`withdraw` drained the balance
while recorded contributions stayed positive), so that case is
`TransferFailed` and commits nothing. Returns the post-state, the paid
amount, and the ordered list of effect steps (the zeroing write strictly
precedes the transfer, mirroring the statement order). -/
def refund (c : Campaign) (now : Timestamp) (sender : Address) :
    Except CError (Campaign × Nat × List RefundStep) :=
  if c.deleted then .error .CampaignDeleted
  else
    let c1 := checkAndUpdateCampaign c now
    let amount := (c1.backers sender).totalContribution
    if amount = 0 then .error .NoContribution
    else
      let zeroed : Backer := { c1.backers sender with totalContribution := 0 }
      let c2 : Campaign := { c1 with backers := updBacker c1.backers sender zeroed }
      if c2.balance < amount then .error .TransferFailed
      else
        .ok ({ c2 with balance := c2.balance - amount }, amount,
          [RefundStep.zeroContribution sender, RefundStep.transfer sender amount])

/-- `updateCampaignDetails` (source lines 121-132): `onlyOwner`, `notDeleted`,
`campaignOpen`, goal must be positive. -/
def updateCampaignDetails (c : Campaign) (sender : Address)
    (newName newDescription : String) (newGoal : Nat) : Except CError Campaign :=
  if sender ≠ c.owner then .error .NotOwner
  else if c.deleted then .error .CampaignDeleted
  else if c.state ≠ CampaignState.Active then .error .CampaignNotActive
  else if newGoal = 0 then .error .InvalidGoal
  else .ok { c with name := newName, description := newDescription, goal := newGoal }

/-- `deleteCampaign()` (source lines 135-139): `onlyOwner`, `notDeleted`; sets
`deleted` and forces the stored state to Failed. -/
def deleteCampaign (c : Campaign) (sender : Address) : Except CError Campaign :=
  if sender ≠ c.owner then .error .NotOwner
  else if c.deleted then .error .CampaignDeleted
  else .ok { c with deleted := true, state := CampaignState.Failed }

/-- `emergencyWithdraw()` (source lines 142-148): only `onlyOwner` plus a
positive-balance require; no state, pause or deleted restriction. -/
def emergencyWithdraw (c : Campaign) (sender : Address) :
    Except CError (Campaign × Nat) :=
  if sender ≠ c.owner then .error .NotOwner
  else if c.balance = 0 then .error .NoBalance
  else .ok ({ c with balance := 0 }, c.balance)

/-- `addTier` (source lines 172-176): `onlyOwner`, `notDeleted`, positive
amount; pushes a tier with zero backers. -/
def addTier (c : Campaign) (sender : Address) (tierName : String) (amount : Nat) :
    Except CError Campaign :=
  if sender ≠ c.owner then .error .NotOwner
  else if c.deleted then .error .CampaignDeleted
  else if amount = 0 then .error .InvalidAmount
  else .ok { c with tiers := c.tiers ++ [{ name := tierName, amount := amount, backers := 0 }] }

/-- `removeTier` (source lines 178-183): `onlyOwner`, `notDeleted`, index in
range; copies the LAST tier into the removed slot and pops the array. There is
no backer-count guard in the source. -/
def removeTier (c : Campaign) (sender : Address) (index : Nat) : Except CError Campaign :=
  if sender ≠ c.owner then .error .NotOwner
  else if c.deleted then .error .CampaignDeleted
  else if h : index < c.tiers.length then
    let last := c.tiers.get ⟨c.tiers.length - 1, by omega⟩
    .ok { c with tiers := (c.tiers.set index last).dropLast }
  else .error .TierDoesNotExist

/-- `hasFundedTier` view (source lines 189-191). -/
def hasFundedTier (c : Campaign) (backer : Address) (tierIndex : Nat) : Bool :=
  (c.backers backer).fundedTier tierIndex

/-- `getContractBalance` view (source lines 185-187). -/
def getContractBalance (c : Campaign) : Nat := c.balance

/-- `togglePause` (source lines 197-200): `onlyOwner` only. -/
def togglePause (c : Campaign) (sender : Address) : Except CError Campaign :=
  if sender ≠ c.owner then .error .NotOwner
  else .ok { c with paused := !c.paused }

/-- `extendDeadline` (source lines 202-205): `onlyOwner`, `campaignOpen`,
`notDeleted`; adds `_extendedDays * 1 days` (86400 seconds per day). -/
def extendDeadline (c : Campaign) (sender : Address) (extendedDays : Nat) :
    Except CError Campaign :=
  if sender ≠ c.owner then .error .NotOwner
  else if c.state ≠ CampaignState.Active then .error .CampaignNotActive
  else if c.deleted then .error .CampaignDeleted
  else .ok { c with deadline := c.deadline + extendedDays * 86400 }

/-- One external transaction against the campaign contract. -/
inductive Op where
  | fund (sender value tierIndex : Nat)
  | withdraw (sender : Address)
  | refund (sender : Address)
  | updateCampaignDetails (sender : Address) (newName newDescription : String) (newGoal : Nat)
  | deleteCampaign (sender : Address)
  | emergencyWithdraw (sender : Address)
  | addTier (sender : Address) (tierName : String) (amount : Nat)
  | removeTier (sender : Address) (index : Nat)
  | togglePause (sender : Address)
  | extendDeadline (sender : Address) (extendedDays : Nat)

/-- Transaction semantics: a successful call commits its post-state, a
reverting call leaves the storage untouched (EVM rollback). -/
def applyOp (c : Campaign) (now : Timestamp) : Op → Campaign
  | Op.fund sender value tierIndex => ((fund c now sender value tierIndex).toOption).getD c
  | Op.withdraw sender => (((withdraw c now sender).toOption).map Prod.fst).getD c
  | Op.refund sender => (((refund c now sender).toOption).map Prod.fst).getD c
  | Op.updateCampaignDetails s n d g => ((updateCampaignDetails c s n d g).toOption).getD c
  | Op.deleteCampaign s => ((deleteCampaign c s).toOption).getD c
  | Op.emergencyWithdraw s => (((emergencyWithdraw c s).toOption).map Prod.fst).getD c
  | Op.addTier s n a => ((addTier c s n a).toOption).getD c
  | Op.removeTier s i => ((removeTier c s i).toOption).getD c
  | Op.togglePause s => ((togglePause c s).toOption).getD c
  | Op.extendDeadline s d => ((extendDeadline c s d).toOption).getD c

/-- Run a sequence of transactions, each tagged with its block timestamp. -/
def run (c : Campaign) : List (Timestamp × Op) → Campaign
  | [] => c
  | (now, op) :: rest => run (applyOp c now op) rest

/-! ## Helper lemmas about `checkAndUpdateCampaign` -/

theorem checkAndUpdateCampaign_of_ne_active (c : Campaign) (now : Timestamp)
    (h : c.state ≠ CampaignState.Active) : checkAndUpdateCampaign c now = c := by
  unfold checkAndUpdateCampaign
  simp [h]

theorem checkAndUpdateCampaign_backers (c : Campaign) (now : Timestamp) :
    (checkAndUpdateCampaign c now).backers = c.backers := by
  unfold checkAndUpdateCampaign
  split <;> rfl

theorem checkAndUpdateCampaign_deleted (c : Campaign) (now : Timestamp) :
    (checkAndUpdateCampaign c now).deleted = c.deleted := by
  unfold checkAndUpdateCampaign
  split <;> rfl

theorem checkAndUpdateCampaign_balance (c : Campaign) (now : Timestamp) :
    (checkAndUpdateCampaign c now).balance = c.balance := by
  unfold checkAndUpdateCampaign
  split <;> rfl

/-! ## Sample campaigns used as concrete inputs -/

/-- The Solidity zero-value `Backer`. -/
def noBacker : Backer := { totalContribution := 0, fundedTier := fun _ => false }

/-- Active campaign: owner 1, goal 10, deadline 100, one tier of price 5 with
one backer, and account 2 has contributed 5 (the whole balance). -/
def sampleFunded : Campaign :=
  { name := "camp"
    description := "d"
    goal := 10
    deadline := 100
    owner := 1
    paused := false
    deleted := false
    state := CampaignState.Active
    tiers := [{ name := "gold", amount := 5, backers := 1 }]
    backers := fun a =>
      if a = 2 then { totalContribution := 5, fundedTier := fun j => j == 0 } else noBacker
    balance := 5 }

/-- `sampleFunded` after a successful `deleteCampaign`. -/
def sampleFundedDeleted : Campaign :=
  { sampleFunded with deleted := true, state := CampaignState.Failed }

/-- Like `sampleFunded` but whose single tier already counts 3 backers. -/
def sampleBackedTier : Campaign :=
  { sampleFunded with tiers := [{ name := "gold", amount := 5, backers := 3 }] }

/-- Like `sampleFunded` but with goal 100, so the balance stays below goal. -/
def sampleExpiredOpen : Campaign :=
  { sampleFunded with goal := 100 }

/-- The sample campaign with its balance drained (exactly the state committed
by `emergencyWithdraw sampleFunded 1`): backer 2 still has a recorded
contribution of 5, but the contract holds nothing. -/
def sampleZeroBalance : Campaign := { sampleFunded with balance := 0 }

/-- Like `sampleFunded` but with a second tier of price 20. -/
def sampleTwoTiers : Campaign :=
  { sampleFunded with
    tiers := [{ name := "gold", amount := 5, backers := 1 },
              { name := "plat", amount := 20, backers := 0 }] }

/-- The state `fund sampleExpiredOpen 200 3 5 0` commits. -/
def sampleExpiredOpenPost : Campaign :=
  { sampleExpiredOpen with
    balance := 10
    state := CampaignState.Failed
    tiers := [{ name := "gold", amount := 5, backers := 2 }]
    backers := updBacker sampleExpiredOpen.backers 3
      ({ totalContribution := 5
         fundedTier := fun j =>
           if j = 0 then true else (sampleExpiredOpen.backers 3).fundedTier j }) }

/-! ## Claims -/

/-- C1: the claim is right and the code is wrong. After a successful
`deleteCampaign()`, `getCampaignStatus()` does report Failed, but a backer
with positive prior contribution can NOT refund: `refund()` carries the
`notDeleted` modifier and reverts with `CampaignDeleted`, contradicting the
contract's own comment "mark failed to enable refunds". Evaluated here at a
concrete campaign where backer 2 holds a contribution of 5. -/
theorem C1_delete_blocks_refund :
    (sampleFunded.backers 2).totalContribution = 5 ∧
    deleteCampaign sampleFunded 1 = Except.ok sampleFundedDeleted ∧
    getCampaignStatus sampleFundedDeleted 50 = CampaignState.Failed ∧
    refund sampleFundedDeleted 50 2 = Except.error CError.CampaignDeleted :=
  ⟨rfl, rfl, rfl, rfl⟩

/-- C2 counterexample: `removeTier(0)` succeeds on a tier that counts 3
backers; the source has no `TierHasBackers` guard at all, refuting the claim
that removal fails whenever `tiers[i].backerCount > 0`. -/
theorem C2_counterexample :
    (sampleBackedTier.tiers[0]?).map Tier.backers = some 3 ∧
    removeTier sampleBackedTier 1 0 = Except.ok { sampleBackedTier with tiers := [] } :=
  ⟨rfl, rfl⟩

/-- C2 amended: `removeTier(i)` performs no backer-count check: for every
owner call on a non-deleted campaign with `i < tiers.length` it succeeds and
shrinks the tier sequence by one, regardless of `tiers[i].backers`. -/
theorem C2_amended_no_backer_guard (c : Campaign) (sender index : Nat)
    (hOwn : sender = c.owner) (hDel : c.deleted = false)
    (hIdx : index < c.tiers.length) :
    ∃ c2, removeTier c sender index = Except.ok c2 ∧
      c2.tiers.length = c.tiers.length - 1 := by
  unfold removeTier
  simp [hOwn, hDel, hIdx]

/-- Witness for `C2_amended_no_backer_guard` at the concrete campaign whose
tier 0 has 3 backers. -/
theorem C2_amended_witness :
    (1 : Nat) = sampleBackedTier.owner ∧ sampleBackedTier.deleted = false ∧
    0 < sampleBackedTier.tiers.length ∧
    (∃ c2, removeTier sampleBackedTier 1 0 = Except.ok c2 ∧
      c2.tiers.length = sampleBackedTier.tiers.length - 1) :=
  ⟨rfl, rfl, by decide,
    C2_amended_no_backer_guard sampleBackedTier 1 0 rfl rfl (by decide)⟩

/-- C3 counterexample: a stored-Active, non-deleted campaign at its deadline
with balance 5 below goal 10: the mutating `checkAndUpdateCampaign` computes
Failed, while the read-only `getCampaignStatus` returns the stale stored
Active — the two logics disagree, refuting the claimed equivalence. -/
theorem C3_counterexample :
    sampleFunded.deleted = false ∧
    sampleFunded.state = CampaignState.Active ∧
    sampleFunded.deadline ≤ 100 ∧
    sampleFunded.balance < sampleFunded.goal ∧
    (checkAndUpdateCampaign sampleFunded 100).state = CampaignState.Failed ∧
    getCampaignStatus sampleFunded 100 = CampaignState.Active :=
  ⟨rfl, rfl, by decide, by decide, by decide, by decide⟩

/-- C3 amended: `getCampaignStatus` returns Failed whenever `deleted`; on a
non-deleted campaign it agrees with the state `checkAndUpdateCampaign` would
compute whenever the stored state is not Active or the deadline has not yet
passed; for a stored-Active campaign at or past the deadline it instead
returns the stale stored Active state. -/
theorem C3_amended_status_agreement (c : Campaign) (now : Timestamp) :
    (c.deleted = true → getCampaignStatus c now = CampaignState.Failed) ∧
    (c.deleted = false → c.state ≠ CampaignState.Active ∨ now < c.deadline →
      getCampaignStatus c now = (checkAndUpdateCampaign c now).state) := by
  constructor
  · intro h
    unfold getCampaignStatus
    simp [h]
  · intro hDel hCase
    unfold getCampaignStatus checkAndUpdateCampaign
    rcases hCase with h | h
    · simp [h, hDel]
    · by_cases hs : c.state = CampaignState.Active
      · simp [hs, hDel, not_le.mpr h]
      · simp [hs, hDel]

/-- Witness for `C3_amended_status_agreement`: before the deadline the two
status computations agree on the sample campaign. -/
theorem C3_amended_witness :
    sampleFunded.deleted = false ∧ (99 : Nat) < sampleFunded.deadline ∧
    getCampaignStatus sampleFunded 99 = (checkAndUpdateCampaign sampleFunded 99).state :=
  ⟨rfl, by decide,
    (C3_amended_status_agreement sampleFunded 99).2 rfl (Or.inr (by decide))⟩

/-- C4 counterexample: with the stored state still Active, a `fund` call made
past the deadline with balance below goal does NOT fail `CampaignNotActive`:
the `campaignOpen` modifier sees the stale Active state because
`checkAndUpdateCampaign` only runs at the END of `fund`; the call succeeds and
records the contribution. -/
theorem C4_counterexample :
    sampleExpiredOpen.state = CampaignState.Active ∧
    sampleExpiredOpen.deadline ≤ 200 ∧
    sampleExpiredOpen.balance < sampleExpiredOpen.goal ∧
    fund sampleExpiredOpen 200 3 5 0 = Except.ok sampleExpiredOpenPost ∧
    (sampleExpiredOpenPost.backers 3).totalContribution = 5 :=
  ⟨rfl, by decide, by decide, rfl, rfl⟩

/-- C4 amended: `fund` does not resolve the state before its guards. With the
stored state still Active, not paused, not deleted, a valid tier index and the
exact tier amount attached, the call succeeds — even past the deadline —
credits the sender's ledger and the balance, and only afterwards applies
`checkAndUpdateCampaign`. -/
theorem C4_amended_fund_resolves_after (c : Campaign) (now : Timestamp)
    (sender value tierIndex : Nat) (t : Tier)
    (hActive : c.state = CampaignState.Active) (hPaused : c.paused = false)
    (hDeleted : c.deleted = false) (hTier : c.tiers[tierIndex]? = some t)
    (hVal : value = t.amount) :
    ∃ c2, fund c now sender value tierIndex = Except.ok c2 ∧
      (c2.backers sender).totalContribution
        = (c.backers sender).totalContribution + value ∧
      c2.balance = c.balance + value := by
  refine ⟨checkAndUpdateCampaign (fundCommit c sender value tierIndex t) now, ?_, ?_, ?_⟩
  · unfold fund
    simp [hActive, hPaused, hDeleted, hTier, hVal]
  · rw [checkAndUpdateCampaign_backers]
    simp [fundCommit, updBacker]
  · rw [checkAndUpdateCampaign_balance]
    simp [fundCommit]

/-- Witness for `C4_amended_fund_resolves_after`: the past-deadline fund call
on the concrete sample campaign. -/
theorem C4_amended_witness :
    sampleExpiredOpen.state = CampaignState.Active ∧
    sampleExpiredOpen.deadline ≤ 200 ∧
    (∃ c2, fund sampleExpiredOpen 200 3 5 0 = Except.ok c2 ∧
      (c2.backers 3).totalContribution
        = (sampleExpiredOpen.backers 3).totalContribution + 5 ∧
      c2.balance = sampleExpiredOpen.balance + 5) :=
  ⟨rfl, by decide,
    C4_amended_fund_resolves_after sampleExpiredOpen 200 3 5 0
      { name := "gold", amount := 5, backers := 1 } rfl rfl rfl rfl rfl⟩

/-- C5: on an Active, non-paused, non-deleted campaign with a valid tier
index, `fund` succeeds exactly when the attached payment equals the tier's
amount, and every other payment reverts with `IncorrectAmount` (a revert
commits no state change, see `applyOp`). -/
theorem C5_tier_payment_exactness (c : Campaign) (now : Timestamp)
    (sender value tierIndex : Nat) (t : Tier)
    (hActive : c.state = CampaignState.Active) (hPaused : c.paused = false)
    (hDeleted : c.deleted = false) (hTier : c.tiers[tierIndex]? = some t) :
    ((∃ c2, fund c now sender value tierIndex = Except.ok c2) ↔ value = t.amount) ∧
    (value ≠ t.amount →
      fund c now sender value tierIndex = Except.error CError.IncorrectAmount) := by
  unfold fund
  simp only [hActive, hPaused, hDeleted, hTier]
  by_cases hv : value = t.amount
  · simp [hv]
  · simp [hv]

/-- Witness for `C5_tier_payment_exactness`: an overpayment of 7 against the
price-5 tier of the sample campaign fails with `IncorrectAmount`. -/
theorem C5_witness :
    sampleFunded.tiers[0]? = some { name := "gold", amount := 5, backers := 1 } ∧
    (((∃ c2, fund sampleFunded 50 3 7 0 = Except.ok c2) ↔
        (7 : Nat) = ({ name := "gold", amount := 5, backers := 1 } : Tier).amount) ∧
      ((7 : Nat) ≠ ({ name := "gold", amount := 5, backers := 1 } : Tier).amount →
        fund sampleFunded 50 3 7 0 = Except.error CError.IncorrectAmount)) :=
  ⟨rfl, C5_tier_payment_exactness sampleFunded 50 3 7 0
    { name := "gold", amount := 5, backers := 1 } rfl rfl rfl rfl⟩

/-- C6 counterexample: a backer with positive recorded contribution on a
non-deleted campaign is NOT always paid out. After the owner's
`emergencyWithdraw` drains the sample campaign (an owner call allowed in every
state), backer 2 still has a recorded contribution of 5 but the contract
balance is 0, and the real `refund()` reverts inside `transfer` with nothing
paid — refuting the claimed unconditional payout. -/
theorem C6_counterexample :
    emergencyWithdraw sampleFunded 1 = Except.ok (sampleZeroBalance, 5) ∧
    sampleZeroBalance.deleted = false ∧
    0 < (sampleZeroBalance.backers 2).totalContribution ∧
    refund sampleZeroBalance 50 2 = Except.error CError.TransferFailed :=
  ⟨rfl, rfl, by decide, rfl⟩

/-- C6 amended: on a non-deleted campaign, a backer with positive recorded
contribution — provided the contract balance still covers it (it can fall
short only through owner withdrawals) — is refunded exactly that amount; the
effect sequence zeroes the recorded contribution strictly before the external
transfer (mirroring source lines 112 and 115); the recorded contribution is
zero afterwards; and an immediate second `refund` reverts with
`NoContribution`. -/
theorem C6_amended_refund_conservation (c : Campaign) (now : Timestamp)
    (sender : Address) (hDel : c.deleted = false)
    (hPos : 0 < (c.backers sender).totalContribution)
    (hCov : (c.backers sender).totalContribution ≤ c.balance) :
    ∃ c2, refund c now sender =
        Except.ok (c2, (c.backers sender).totalContribution,
          [RefundStep.zeroContribution sender,
            RefundStep.transfer sender (c.backers sender).totalContribution]) ∧
      (c2.backers sender).totalContribution = 0 ∧
      refund c2 now sender = Except.error CError.NoContribution := by
  have hb := checkAndUpdateCampaign_backers c now
  have hd := checkAndUpdateCampaign_deleted c now
  have hbal := checkAndUpdateCampaign_balance c now
  have hz : ¬(c.backers sender).totalContribution = 0 := by omega
  have hnl : ¬c.balance < (c.backers sender).totalContribution := not_lt.mpr hCov
  refine ⟨{ checkAndUpdateCampaign c now with
      backers := updBacker (checkAndUpdateCampaign c now).backers sender
        ({ (checkAndUpdateCampaign c now).backers sender with totalContribution := 0 })
      balance := (checkAndUpdateCampaign c now).balance
        - ((checkAndUpdateCampaign c now).backers sender).totalContribution },
    ?_, ?_, ?_⟩
  · unfold refund
    simp [hDel, hb, hbal, hz, hnl]
  · simp [updBacker]
  · unfold refund
    simp [hd, hDel, checkAndUpdateCampaign_backers, updBacker]

/-- Witness for `C6_amended_refund_conservation`: backer 2 of the sample
campaign, whose recorded contribution of 5 is fully covered by the balance
of 5. -/
theorem C6_amended_witness :
    sampleFunded.deleted = false ∧
    0 < (sampleFunded.backers 2).totalContribution ∧
    (sampleFunded.backers 2).totalContribution ≤ sampleFunded.balance ∧
    (∃ c2, refund sampleFunded 50 2 =
        Except.ok (c2, (sampleFunded.backers 2).totalContribution,
          [RefundStep.zeroContribution 2,
            RefundStep.transfer 2 (sampleFunded.backers 2).totalContribution]) ∧
      (c2.backers 2).totalContribution = 0 ∧
      refund c2 50 2 = Except.error CError.NoContribution) :=
  ⟨rfl, by decide, by decide,
    C6_amended_refund_conservation sampleFunded 50 2 rfl (by decide) (by decide)⟩

/-- C7: whenever `checkAndUpdateCampaign` runs on a stored-Active campaign
whose balance has reached the goal, the state becomes Successful — for EVERY
timestamp, in particular also at or past the deadline, because both branches
of the deadline test check the goal first. -/
theorem C7_goal_priority (c : Campaign) (now : Timestamp)
    (hActive : c.state = CampaignState.Active) (hGoal : c.goal ≤ c.balance) :
    (checkAndUpdateCampaign c now).state = CampaignState.Successful := by
  unfold checkAndUpdateCampaign
  simp [hActive, hGoal]

/-- Witness for `C7_goal_priority`: the sample campaign with balance equal to
its goal, resolved exactly at its deadline (timestamp 100). -/
theorem C7_witness :
    ({ sampleFunded with balance := 10 } : Campaign).state = CampaignState.Active ∧
    ({ sampleFunded with balance := 10 } : Campaign).goal
      ≤ ({ sampleFunded with balance := 10 } : Campaign).balance ∧
    (checkAndUpdateCampaign { sampleFunded with balance := 10 } 100).state
      = CampaignState.Successful :=
  ⟨rfl, by decide,
    C7_goal_priority { sampleFunded with balance := 10 } 100 rfl (by decide)⟩

/-- Helper for C8: no single transaction can move a campaign whose stored
state is already non-Active (Successful or Failed) back to Active. Checked by
case analysis over every operation of the contract. -/
theorem applyOp_state_ne_active (c : Campaign) (now : Timestamp) (op : Op)
    (h : c.state ≠ CampaignState.Active) :
    (applyOp c now op).state ≠ CampaignState.Active := by
  cases op with
  | fund sender value tierIndex =>
      simp [applyOp, fund, h, Except.toOption]
  | withdraw sender =>
      simp only [applyOp, withdraw, checkAndUpdateCampaign_of_ne_active c now h]
      split_ifs <;> simp [Except.toOption, h]
  | refund sender =>
      simp only [applyOp, refund, checkAndUpdateCampaign_of_ne_active c now h]
      split_ifs <;> simp [Except.toOption, h]
  | updateCampaignDetails s n d g =>
      simp only [applyOp, updateCampaignDetails]
      split_ifs <;> simp [Except.toOption, h]
  | deleteCampaign s =>
      simp only [applyOp, deleteCampaign]
      split_ifs <;> simp [Except.toOption, h]
  | emergencyWithdraw s =>
      simp only [applyOp, emergencyWithdraw]
      split_ifs <;> simp [Except.toOption, h]
  | addTier s n a =>
      simp only [applyOp, addTier]
      split_ifs <;> simp [Except.toOption, h]
  | removeTier s i =>
      simp only [applyOp, removeTier]
      split_ifs <;> simp [Except.toOption, h]
  | togglePause s =>
      simp only [applyOp, togglePause]
      split_ifs <;> simp [Except.toOption, h]
  | extendDeadline s d =>
      simp only [applyOp, extendDeadline]
      split_ifs <;> simp [Except.toOption, h]

/-- C8: state monotonicity. Once the stored state is Successful or Failed
(i.e. not Active), no sequence of transactions — including resolves inside
`fund`/`withdraw`/`refund` and `deleteCampaign` — ever returns it to Active. -/
theorem C8_monotonic_state (c : Campaign) (ops : List (Timestamp × Op))
    (h : c.state ≠ CampaignState.Active) :
    (run c ops).state ≠ CampaignState.Active := by
  induction ops generalizing c with
  | nil => exact h
  | cons p rest ih =>
      cases p with
      | mk now op => exact ih (applyOp c now op) (applyOp_state_ne_active c now op h)

/-- Witness for `C8_monotonic_state`: the deleted (Failed) sample campaign
stays non-Active across a refund, a pause toggle and a fund attempt. -/
theorem C8_witness :
    sampleFundedDeleted.state ≠ CampaignState.Active ∧
    (run sampleFundedDeleted
      [(200, Op.refund 2), (300, Op.togglePause 1), (400, Op.fund 3 5 0)]).state
      ≠ CampaignState.Active :=
  ⟨by decide, C8_monotonic_state sampleFundedDeleted
    [(200, Op.refund 2), (300, Op.togglePause 1), (400, Op.fund 3 5 0)] (by decide)⟩

/-- C9 counterexample: `emergencyWithdraw` is NOT unconditional — with a zero
balance the owner's call reverts with `NoBalance` (`require(balance > 0)` at
source line 144), refuting "transfers the entire contract balance to the owner
unconditionally". -/
theorem C9_counterexample :
    sampleZeroBalance.balance = 0 ∧
    emergencyWithdraw sampleZeroBalance sampleZeroBalance.owner
      = Except.error CError.NoBalance :=
  ⟨rfl, rfl⟩

/-- C9 amended: whenever the balance is positive, `emergencyWithdraw` is
callable by the owner in every state, paused or deleted (no such guards
exist), transfers the entire balance to the owner, and leaves `state`,
`deleted`, `paused`, the tiers and the backer ledger unchanged; with a zero
balance it reverts with `NoBalance`. -/
theorem C9_amended_emergencyWithdraw (c : Campaign) (sender : Address)
    (hOwn : sender = c.owner) (hBal : c.balance ≠ 0) :
    ∃ c2, emergencyWithdraw c sender = Except.ok (c2, c.balance) ∧
      c2.balance = 0 ∧ c2.state = c.state ∧ c2.deleted = c.deleted ∧
      c2.paused = c.paused ∧ c2.tiers = c.tiers ∧ c2.backers = c.backers := by
  refine ⟨{ c with balance := 0 }, ?_, rfl, rfl, rfl, rfl, rfl, rfl⟩
  unfold emergencyWithdraw
  simp [hOwn, hBal]

/-- Witness for `C9_amended_emergencyWithdraw` on the sample campaign, which
holds a balance of 5. -/
theorem C9_amended_witness :
    (1 : Nat) = sampleFunded.owner ∧ sampleFunded.balance ≠ 0 ∧
    (∃ c2, emergencyWithdraw sampleFunded 1 = Except.ok (c2, sampleFunded.balance) ∧
      c2.balance = 0 ∧ c2.state = sampleFunded.state ∧
      c2.deleted = sampleFunded.deleted ∧ c2.paused = sampleFunded.paused ∧
      c2.tiers = sampleFunded.tiers ∧ c2.backers = sampleFunded.backers) :=
  ⟨rfl, by decide, C9_amended_emergencyWithdraw sampleFunded 1 rfl (by decide)⟩

/-- C10: a successful `removeTier(i)` copies the LAST tier into slot `i` and
shrinks the sequence by one, so for any non-final index the former last tier
now occupies position `i` (relative order is not preserved), while the backer
ledger — including every recorded funded-tier index — is left untouched and so
may now point at a different tier than the one originally paid for. -/
theorem C10_removeTier_swap (c : Campaign) (sender index : Nat)
    (hOwn : sender = c.owner) (hDel : c.deleted = false)
    (hIdx : index < c.tiers.length) :
    ∃ c2, removeTier c sender index = Except.ok c2 ∧
      c2.tiers.length = c.tiers.length - 1 ∧
      (index + 1 < c.tiers.length →
        c2.tiers[index]? = c.tiers[c.tiers.length - 1]?) ∧
      (∀ b j, hasFundedTier c2 b j = hasFundedTier c b j) := by
  have hlen : c.tiers.length - 1 < c.tiers.length := by omega
  refine ⟨{ c with tiers :=
      (c.tiers.set index (c.tiers.get ⟨c.tiers.length - 1, hlen⟩)).dropLast },
    ?_, ?_, ?_, ?_⟩
  · unfold removeTier
    simp [hOwn, hDel, hIdx]
  · simp [List.length_dropLast, List.length_set]
  · intro hi
    show ((c.tiers.set index (c.tiers.get ⟨c.tiers.length - 1, hlen⟩)).dropLast)[index]?
      = c.tiers[c.tiers.length - 1]?
    rw [List.dropLast_eq_take, List.length_set, List.getElem?_take,
      if_pos (by omega), List.getElem?_set_eq_of_lt _ (by omega),
      List.getElem?_eq_getElem hlen]
    rfl
  · intro b j
    rfl

/-- Witness for `C10_removeTier_swap`: a two-tier campaign; removing index 0
moves the former last tier into position 0. -/
theorem C10_witness :
    (1 : Nat) = sampleTwoTiers.owner ∧ sampleTwoTiers.deleted = false ∧
    0 < sampleTwoTiers.tiers.length ∧
    (∃ c2, removeTier sampleTwoTiers 1 0 = Except.ok c2 ∧
      c2.tiers.length = sampleTwoTiers.tiers.length - 1 ∧
      (0 + 1 < sampleTwoTiers.tiers.length →
        c2.tiers[0]? = sampleTwoTiers.tiers[sampleTwoTiers.tiers.length - 1]?) ∧
      (∀ b j, hasFundedTier c2 b j = hasFundedTier sampleTwoTiers b j)) :=
  ⟨rfl, rfl, by decide, C10_removeTier_swap sampleTwoTiers 1 0 rfl rfl (by decide)⟩

end BlockFund
